import Mathlib

/-!
Verification of the e-commerce analytics pipeline (lesson7_files).

Shallow embedding of the data-preparation and metrics-computation code in
`data_loader.py`, `business_metrics.py`, `dashboard_utils.py` and `app.py`.
Records are modelled as Lean structures over exact rationals; pandas
aggregations become explicit list/finset computations.  A division whose
real counterpart produces a non-finite value (numpy `inf`/`NaN`) is
modelled with `Option`: `none` stands for the undefined result, so that
division-by-zero behaviour is visible in the embedding instead of being
absorbed by the junk value `x / 0 = 0` of `ℚ`.
-/

namespace ECommerce

/-- A row of the unified sales record set (one row per order line item), as
produced by `clean_and_prepare_data` and `filter_delivered_orders`.
`delivery_days` is `none` when the delivery date is missing. -/
structure SalesRecord where
  order_id : ℕ
  order_item_id : ℕ
  product_id : ℕ
  price : ℚ
  order_status : String
  customer_id : ℕ
  year : ℤ
  month : ℤ
  product_category_name : String
  customer_state : String
  review_score : ℤ
  delivery_days : Option ℤ
deriving DecidableEq

/-- `categorize_delivery_speed` from `data_loader.py` (lines 124-132):
the Delivery Filter bucketing scheme.  `none` models a null
`delivery_days` (`pd.isna`). -/
def categorize_delivery_speed : Option ℤ → String
  | none => "Unknown"
  | some d => if d ≤ 3 then "1-3 days" else if d ≤ 7 then "4-7 days" else "8+ days"

/-- `categorize_delivery_time` from `dashboard_utils.py` (lines 322-332):
the satisfaction-vs-delivery bucketing scheme. -/
def categorize_delivery_time : Option ℤ → String
  | none => "Unknown"
  | some d =>
    if d ≤ 3 then "1-3 days"
    else if d ≤ 7 then "4-7 days"
    else if d ≤ 14 then "8-14 days"
    else "15+ days"

/-- `data['price'].sum()`: total revenue of a record set. -/
def total_revenue (l : List SalesRecord) : ℚ := (l.map SalesRecord.price).sum

/-- The set of distinct order ids of a record set (`data['order_id'].nunique()`
counts this set; `groupby('order_id')` groups by it). -/
def order_ids (l : List SalesRecord) : Finset ℕ :=
  (l.map SalesRecord.order_id).toFinset

/-- Sum of `price` over the rows of one order: one group of
`data.groupby('order_id')['price'].sum()`. -/
def order_sum (l : List SalesRecord) (o : ℕ) : ℚ :=
  ((l.filter fun r => r.order_id = o).map SalesRecord.price).sum

/-- `data['order_id'].nunique()`. -/
def total_orders (l : List SalesRecord) : ℕ := (order_ids l).card

/-- `data['customer_id'].nunique()`. -/
def total_customers (l : List SalesRecord) : ℕ :=
  ((l.map SalesRecord.customer_id).toFinset).card

/-- `data.groupby('order_id')['price'].sum().mean()`: mean over distinct
orders of the per-order price sums.  `none` models the `NaN` that pandas
`mean` returns on an empty series (no orders). -/
def average_order_value (l : List SalesRecord) : Option ℚ :=
  if total_orders l = 0 then none
  else some ((∑ o in order_ids l, order_sum l o) / (total_orders l : ℚ))

/-- A period filter, the closed form of the dict-shaped filters actually
passed to `calculate_revenue_metrics` (only `{year}` and `{year, month}`
shapes occur; see design note in the spec). -/
structure PeriodFilter where
  year : Option ℤ
  month : Option ℤ
deriving DecidableEq

/-- One equality test `data[key] == value` per present filter entry. -/
def matchesFilter (f : PeriodFilter) (r : SalesRecord) : Bool :=
  (match f.year with | none => true | some y => r.year = y) &&
  (match f.month with | none => true | some m => r.month = m)

/-- The successive `data[data[key] == value]` filtering loop of
`calculate_revenue_metrics`. -/
def applyFilter (f : PeriodFilter) (l : List SalesRecord) : List SalesRecord :=
  l.filter (matchesFilter f)

/-- The `current_data` of `calculate_revenue_metrics`: filtered when a
filter is given, the whole data set otherwise. -/
def current_data_of (data : List SalesRecord) : Option PeriodFilter → List SalesRecord
  | some f => applyFilter f data
  | none => data

/-- The `comparison_data` of `calculate_revenue_metrics`: filtered when a
filter is given, the empty frame otherwise. -/
def comparison_data_of (data : List SalesRecord) : Option PeriodFilter → List SalesRecord
  | some f => applyFilter f data
  | none => []

/-- The per-period block built inside `calculate_revenue_metrics`. -/
structure PeriodMetrics where
  total_revenue : ℚ
  total_orders : ℕ
  total_customers : ℕ
  average_order_value : Option ℚ
deriving DecidableEq

/-- The four metric fields computed for one period. -/
def periodMetrics (l : List SalesRecord) : PeriodMetrics :=
  { total_revenue := total_revenue l
    total_orders := total_orders l
    total_customers := total_customers l
    average_order_value := average_order_value l }

/-- The bare `(current - comparison) / comparison * 100` of
`calculate_revenue_metrics` (lines 69-82).  The source has no zero-guard
here: when `comparison = 0` the division yields a non-finite numpy value
(or raises for integer operands), modelled as `none`. -/
def growth_rate (current comparison : ℚ) : Option ℚ :=
  if comparison = 0 then none
  else some ((current - comparison) / comparison * 100)

/-- AOV growth: the operands are themselves possibly-`NaN` means, and a
`NaN` operand propagates. -/
def aov_growth_rate : Option ℚ → Option ℚ → Option ℚ
  | some c, some p => growth_rate c p
  | _, _ => none

/-- The `results['growth_rates']` block. -/
structure GrowthRates where
  revenue_growth : Option ℚ
  order_growth : Option ℚ
  aov_growth : Option ℚ
deriving DecidableEq

/-- The full result dict of `calculate_revenue_metrics`:
`comparison_period` and `growth_rates` are present only when the
comparison data set is non-empty. -/
structure RevenueMetricsResult where
  current_period : PeriodMetrics
  comparison_period : Option PeriodMetrics
  growth_rates : Option GrowthRates
deriving DecidableEq

/-- `calculate_revenue_metrics` from `business_metrics.py` (lines 17-84). -/
def calculate_revenue_metrics (data : List SalesRecord)
    (current_period_filter comparison_period_filter : Option PeriodFilter) :
    RevenueMetricsResult :=
  let current_data := current_data_of data current_period_filter
  let comparison_data := comparison_data_of data comparison_period_filter
  { current_period := periodMetrics current_data
    comparison_period :=
      if comparison_data.isEmpty then none else some (periodMetrics comparison_data)
    growth_rates :=
      if comparison_data.isEmpty then none
      else some
        { revenue_growth :=
            growth_rate (total_revenue current_data) (total_revenue comparison_data)
          order_growth :=
            growth_rate (total_orders current_data : ℚ) (total_orders comparison_data : ℚ)
          aov_growth :=
            aov_growth_rate (average_order_value current_data)
              (average_order_value comparison_data) } }

/-- The dashboard trend computation of `app.py` (lines 226-243): when the
comparison set is non-empty, `(current - comparison) / comparison * 100 if
comparison > 0 else 0`; when the comparison set is empty, the trend is set
to 0 outright (line 243). -/
def app_trend (current comparison : ℚ) (hasComparison : Bool) : ℚ :=
  if hasComparison then
    if 0 < comparison then (current - comparison) / comparison * 100 else 0
  else 0

/-- The AOV variant of the dashboard trend: its operands are means that are
`NaN` (`none`) on an empty period.  The `0` fallthrough for a `none`
operand is unreachable in the dashboard, which consults this value only
when both periods are non-empty. -/
def app_aov_trend (current comparison : Option ℚ) (hasComparison : Bool) : ℚ :=
  if hasComparison then
    match current, comparison with
    | some c, some p => if 0 < p then (c - p) / p * 100 else 0
    | _, _ => 0
  else 0

/-- Round half to even, the rounding used by numpy/pandas `round`.  The
binary floating-point representation effects of the real implementation
are abstracted: this is exact decimal rounding on rationals. -/
def round_half_even (x : ℚ) : ℤ :=
  if x - ⌊x⌋ < 1 / 2 then ⌊x⌋
  else if 1 / 2 < x - ⌊x⌋ then ⌊x⌋ + 1
  else if Even ⌊x⌋ then ⌊x⌋ else ⌊x⌋ + 1

/-- Pandas `.round(2)`: round to two decimal places. -/
def round2 (x : ℚ) : ℚ := (round_half_even (x * 100) : ℚ) / 100

/-- Pandas `drop_duplicates`: keep the first occurrence of each element,
preserving order.  `seen` accumulates the elements already emitted. -/
def dedupFirstAux {α : Type} [DecidableEq α] (seen : List α) : List α → List α
  | [] => []
  | a :: l => if a ∈ seen then dedupFirstAux seen l else a :: dedupFirstAux (a :: seen) l

/-- `DataFrame.drop_duplicates()` on a list of rows. -/
def drop_duplicates {α : Type} [DecidableEq α] (l : List α) : List α :=
  dedupFirstAux [] l

/-- `data[['order_id', 'review_score']].drop_duplicates()` from
`analyze_customer_satisfaction` (`business_metrics.py` line 210): the
dedup key is the whole projected row, i.e. the (order_id, review_score)
pair.  Review scores are modelled as present and integral. -/
def review_rows (l : List SalesRecord) : List (ℕ × ℤ) :=
  drop_duplicates (l.map fun r => (r.order_id, r.review_score))

/-- The satisfaction result dict (`business_metrics.py` lines 212-218).
`none` models the `NaN` produced on an empty review set. -/
structure SatisfactionMetrics where
  average_score : Option ℚ
  total_reviews : ℕ
  satisfaction_rate : Option ℚ
deriving DecidableEq

/-- `review_data['review_score'].value_counts()` at one score: how many
deduplicated review rows carry score `s`. -/
def score_count (l : List SalesRecord) (s : ℤ) : ℕ :=
  ((review_rows l).filter fun p => p.2 = s).length

/-- `analyze_customer_satisfaction` from `business_metrics.py`
(lines 196-220), restricted to the aggregate fields the claims concern. -/
def analyze_customer_satisfaction (l : List SalesRecord) : SatisfactionMetrics :=
  let rd := review_rows l
  { average_score :=
      if rd.length = 0 then none
      else some ((rd.map fun p => (p.2 : ℚ)).sum / (rd.length : ℚ))
    total_reviews := rd.length
    satisfaction_rate :=
      if rd.length = 0 then none
      else some (((rd.filter fun p => 4 ≤ p.2).length : ℚ) / (rd.length : ℚ) * 100) }

/-- A raw timestamp cell before conversion: present and parseable,
missing (`NaN`, becomes `NaT`), or present but unparseable. -/
inductive TsCell where
  | missing : TsCell
  | valid : ℤ → TsCell
  | invalid : TsCell
deriving DecidableEq

/-- A row of the merged orders/order_items frame entering the timestamp
conversion step of `clean_and_prepare_data`. -/
structure RawSalesRow where
  order_id : ℕ
  price : ℚ
  order_purchase_timestamp : TsCell
  order_delivered_customer_date : TsCell
deriving DecidableEq

/-- A row after timestamp conversion: instants are parsed, a missing cell
became `NaT` (`none`) and the row was kept. -/
structure UnifiedRow where
  order_id : ℕ
  price : ℚ
  purchase_instant : Option ℤ
  delivered_instant : Option ℤ
deriving DecidableEq

/-- `pd.to_datetime` on one cell with the default `errors="raise"`:
a missing value becomes `NaT` without error, an unparseable value raises
(modelled as `Except.error`). -/
def to_datetime : TsCell → Except Unit (Option ℤ)
  | .missing => .ok none
  | .valid t => .ok (some t)
  | .invalid => .error ()

/-- The timestamp-conversion step of `clean_and_prepare_data`
(`data_loader.py` lines 69-76): both timestamp columns are converted with
`pd.to_datetime`; one unparseable cell anywhere makes the whole call
raise, so the result is all-or-nothing, never a per-row drop. -/
def clean_and_prepare_data : List RawSalesRow → Except Unit (List UnifiedRow)
  | [] => .ok []
  | r :: rs =>
    match to_datetime r.order_purchase_timestamp,
        to_datetime r.order_delivered_customer_date, clean_and_prepare_data rs with
    | .ok p, .ok d, .ok rest => .ok (⟨r.order_id, r.price, p, d⟩ :: rest)
    | _, _, _ => .error ()

/-- `order_purchase_timestamp.dt.to_period('M')` linearized: a calendar
month as a single integer key. -/
def period_key (r : SalesRecord) : ℤ := r.year * 12 + r.month

/-- The distinct month keys of a record set in ascending order (pandas
`groupby` sorts its keys). -/
def month_keys (l : List SalesRecord) : List ℤ :=
  ((l.map period_key).toFinset).sort (· ≤ ·)

/-- The revenue of one month group. -/
def month_revenue (l : List SalesRecord) (k : ℤ) : ℚ :=
  ((l.filter fun r => period_key r = k).map SalesRecord.price).sum

/-- `filtered_data.groupby(...to_period('M'))['price'].sum()` from
`app.py` (lines 219-221): the ordered sequence of monthly revenue totals. -/
def monthly_revenue_series (l : List SalesRecord) : List ℚ :=
  (month_keys l).map (month_revenue l)

/-- Pandas `Series.pct_change()` with the leading `NaN` removed (pandas
`mean` skips it): successive fractional changes. -/
def pct_change (xs : List ℚ) : List ℚ :=
  List.zipWith (fun a b => (b - a) / a) xs xs.tail

/-- Arithmetic mean of a list of rationals. -/
def list_mean (xs : List ℚ) : ℚ := xs.sum / (xs.length : ℚ)

/-- `current_period_monthly.pct_change().mean() * 100 if
len(current_period_monthly) > 1 else 0` from `app.py` (line 223). -/
def monthly_growth (l : List SalesRecord) : ℚ :=
  let s := monthly_revenue_series l
  if 1 < s.length then list_mean (pct_change s) * 100 else 0

/-- Stated from the spec for comparison (claim C8): the arithmetic mean of
the successive percentage changes, each already expressed in percent. -/
def spec_monthly_growth (l : List SalesRecord) : ℚ :=
  let s := monthly_revenue_series l
  if 1 < s.length then
    list_mean (List.zipWith (fun a b => (b - a) / a * 100) s s.tail)
  else 0

/-- The lexicographic order on strings through their character lists: the
order in which pandas emits string group keys.  It is stated on `.data`
so that concrete comparisons evaluate. -/
def string_le (a b : String) : Prop := a.data ≤ b.data

instance : DecidableRel string_le := fun a b => by unfold string_le; infer_instance

instance : IsTrans String string_le := ⟨fun _ _ _ h1 h2 => le_trans h1 h2⟩

instance : IsAntisymm String string_le :=
  ⟨fun a b h1 h2 => by
    cases a; cases b
    exact congrArg String.mk (le_antisymm h1 h2)⟩

instance : IsTotal String string_le := ⟨fun a b => le_total a.data b.data⟩

/-- One row of a grouped analyzer table before the share column is added:
a group key and its (rounded) revenue total. -/
structure GroupRow where
  key : String
  total_revenue : ℚ
deriving DecidableEq

/-- One row of a grouped analyzer table after the share column is added. -/
structure GroupPerfRow where
  key : String
  total_revenue : ℚ
  revenue_share : ℚ
deriving DecidableEq

/-- The distinct group keys in ascending order: the row order of a pandas
`groupby` result before any explicit sort. -/
def group_keys (key : SalesRecord → String) (l : List SalesRecord) : List String :=
  ((l.map key).toFinset).sort string_le

/-- One group's `('price', 'sum')` aggregate, rounded by the `.round(2)`
applied to the aggregation result. -/
def group_revenue (key : SalesRecord → String) (l : List SalesRecord) (k : String) : ℚ :=
  round2 (((l.filter fun r => key r = k).map SalesRecord.price).sum)

/-- The grouped table in groupby (ascending-key) order. -/
def group_table (key : SalesRecord → String) (l : List SalesRecord) : List GroupRow :=
  (group_keys key l).map fun k => ⟨k, group_revenue key l k⟩

/-- The comparison used by `sort_values('total_revenue', ascending=False)`:
rows are compared by revenue only.  The source sorts with the default
`kind="quicksort"`, which guarantees nothing about the relative order of
equal revenues, so no tie-break is encoded here and no tie-order property
is proved about the sorted table. -/
def revenue_desc (a b : GroupRow) : Prop := b.total_revenue ≤ a.total_revenue

instance : DecidableRel revenue_desc := fun a b => by
  unfold revenue_desc; infer_instance

instance : IsTotal GroupRow revenue_desc :=
  ⟨fun a b => le_total b.total_revenue a.total_revenue⟩

instance : IsTrans GroupRow revenue_desc :=
  ⟨fun _ _ _ h1 h2 => le_trans h2 h1⟩

/-- `sort_values('total_revenue', ascending=False)` on the grouped table,
modelled with an insertion sort.  Every property proved about it below
(weakly descending order, being a permutation of the grouped table, the
per-row share values and their sum) is independent of how the sorting
algorithm orders equal revenues, so each holds of the source's default
quicksort as well. -/
def sorted_group_table (key : SalesRecord → String) (l : List SalesRecord) : List GroupRow :=
  List.insertionSort revenue_desc (group_table key l)

/-- `total_revenue = category_metrics['total_revenue'].sum()`: the column
sum of the (sorted) grouped table, the denominator of the shares. -/
def overall_group_revenue (key : SalesRecord → String) (l : List SalesRecord) : ℚ :=
  ((sorted_group_table key l).map GroupRow.total_revenue).sum

/-- The grouped table with the `revenue_share` column
`(total_revenue / overall * 100).round(2)` added. -/
def with_share (key : SalesRecord → String) (l : List SalesRecord) : List GroupPerfRow :=
  (sorted_group_table key l).map fun g =>
    ⟨g.key, g.total_revenue, round2 (g.total_revenue / overall_group_revenue key l * 100)⟩

/-- The `category_performance` table of `analyze_product_performance`
(`business_metrics.py` lines 121-155), restricted to the key, revenue and
share columns the claims concern. -/
def analyze_product_performance (l : List SalesRecord) : List GroupPerfRow :=
  with_share (fun r => r.product_category_name) l

/-- The `state_performance` table of `analyze_geographic_performance`
(`business_metrics.py` lines 158-193), same columns. -/
def analyze_geographic_performance (l : List SalesRecord) : List GroupPerfRow :=
  with_share (fun r => r.customer_state) l

/-- The distinct order statuses of a record set, ascending. -/
def status_keys (l : List SalesRecord) : List String :=
  ((l.map SalesRecord.order_status).toFinset).sort string_le

/-- `data['order_status'].value_counts()` at one status: the number of
rows (line items) carrying that status. -/
def status_count (l : List SalesRecord) (s : String) : ℕ :=
  (l.filter fun r => r.order_status = s).length

/-- The `value_counts` table as a (status, count) list. -/
def status_counts (l : List SalesRecord) : List (String × ℕ) :=
  (status_keys l).map fun s => (s, status_count l s)

/-- The result of `calculate_order_status_metrics`. -/
structure OrderStatusMetrics where
  status_counts : List (String × ℕ)
  status_percentages : List (String × ℚ)
  total_orders : ℕ
deriving DecidableEq

/-- `calculate_order_status_metrics` from `business_metrics.py`
(lines 254-272): `total_orders = status_counts.sum()` is the sum of
per-status row counts, and the percentages divide by that sum. -/
def calculate_order_status_metrics (l : List SalesRecord) : OrderStatusMetrics :=
  let counts := status_counts l
  let total := (counts.map Prod.snd).sum
  { status_counts := counts
    status_percentages :=
      counts.map fun p => (p.1, round2 ((p.2 : ℚ) / (total : ℚ) * 100))
    total_orders := total }

/-- A record fixture builder: one delivered line item. -/
def mkRec (o item : ℕ) (p : ℚ) (y m : ℤ) : SalesRecord :=
  { order_id := o
    order_item_id := item
    product_id := item
    price := p
    order_status := "delivered"
    customer_id := o
    year := y
    month := m
    product_category_name := "cat_a"
    customer_state := "SP"
    review_score := 5
    delivery_days := some 3 }

/-- C1 counterexample data: one 2023 row with revenue 5, one 2022 row with
revenue 0, so the comparison period is non-empty but its total revenue is
zero. -/
def exC1 : List SalesRecord := [mkRec 1 1 5 2023 1, mkRec 2 1 0 2022 1]

/-- C2 fixture: orders of 1, 2 and 3 line items with per-order sums
10, 50 and 30. -/
def fixC2 : List SalesRecord :=
  [mkRec 1 1 10 2023 1,
   mkRec 2 1 20 2023 1, mkRec 2 2 30 2023 1,
   mkRec 3 1 10 2023 2, mkRec 3 2 10 2023 2, mkRec 3 3 10 2023 2]

/-- A permutation of `fixC2` (last row moved to the front). -/
def fixC2perm : List SalesRecord :=
  [mkRec 3 3 10 2023 2,
   mkRec 1 1 10 2023 1,
   mkRec 2 1 20 2023 1, mkRec 2 2 30 2023 1,
   mkRec 3 1 10 2023 2, mkRec 3 2 10 2023 2]

/-- C3 counterexample data: one order_id on two rows with two different
review scores (a shape the join can produce when an order has several
reviews). -/
def exC3 : List SalesRecord :=
  [{ mkRec 1 1 10 2023 1 with review_score := 4 },
   { mkRec 1 2 10 2023 1 with review_score := 5 }]

/-- C6 data: one fully parseable row. -/
def exC6good : List RawSalesRow :=
  [{ order_id := 1, price := 10, order_purchase_timestamp := .valid 100,
     order_delivered_customer_date := .valid 105 }]

/-- C6 counterexample data: one parseable row followed by one row with an
unparseable purchase timestamp. -/
def exC6 : List RawSalesRow :=
  [{ order_id := 1, price := 10, order_purchase_timestamp := .valid 100,
     order_delivered_customer_date := .valid 105 },
   { order_id := 2, price := 20, order_purchase_timestamp := .invalid,
     order_delivered_customer_date := .missing }]

/-- C8 witness data: two months with revenues 10 and 15. -/
def exC8 : List SalesRecord := [mkRec 1 1 10 2023 1, mkRec 2 1 15 2023 2]

/-- C7 counterexample data: two categories with revenues 10 and 20, whose
shares (1/3 and 2/3 of 30) do not have exact two-decimal representations,
so the rounded share differs from the exact ratio. -/
def exC7r : List SalesRecord :=
  [{ mkRec 1 1 10 2023 1 with product_category_name := "cat_a", customer_state := "SP" },
   { mkRec 2 1 20 2023 1 with product_category_name := "cat_b", customer_state := "RJ" }]

/-- C7 witness data: two categories and two states with distinct
revenues. -/
def exC7 : List SalesRecord :=
  [{ mkRec 1 1 10 2023 1 with product_category_name := "cat_a", customer_state := "SP" },
   { mkRec 2 1 30 2023 1 with product_category_name := "cat_b", customer_state := "RJ" }]

/-- C10 counterexample data: a single order with two line items. -/
def exC10 : List SalesRecord := [mkRec 1 1 10 2023 1, mkRec 1 2 20 2023 1]

/-- Claim C4: delivery bucketing is a total function of `delivery_days`
with the stated breakpoints in each of the two schemes, and the two
schemes are distinct (they part ways on the 8-14 day range). -/
theorem claim_C4_delivery_bucketing :
    (categorize_delivery_speed none = "Unknown") ∧
    (∀ d : ℤ, d ≤ 3 → categorize_delivery_speed (some d) = "1-3 days") ∧
    (∀ d : ℤ, 3 < d → d ≤ 7 → categorize_delivery_speed (some d) = "4-7 days") ∧
    (∀ d : ℤ, 7 < d → categorize_delivery_speed (some d) = "8+ days") ∧
    (categorize_delivery_time none = "Unknown") ∧
    (∀ d : ℤ, d ≤ 3 → categorize_delivery_time (some d) = "1-3 days") ∧
    (∀ d : ℤ, 3 < d → d ≤ 7 → categorize_delivery_time (some d) = "4-7 days") ∧
    (∀ d : ℤ, 7 < d → d ≤ 14 → categorize_delivery_time (some d) = "8-14 days") ∧
    (∀ d : ℤ, 14 < d → categorize_delivery_time (some d) = "15+ days") ∧
    categorize_delivery_speed (some 8) ≠ categorize_delivery_time (some 8) := by
  refine ⟨rfl, ?_, ?_, ?_, rfl, ?_, ?_, ?_, ?_, by decide⟩
  · intro d h; simp only [categorize_delivery_speed]; rw [if_pos h]
  · intro d h1 h2; simp only [categorize_delivery_speed]
    rw [if_neg (by omega), if_pos h2]
  · intro d h; simp only [categorize_delivery_speed]
    rw [if_neg (by omega), if_neg (by omega)]
  · intro d h; simp only [categorize_delivery_time]; rw [if_pos h]
  · intro d h1 h2; simp only [categorize_delivery_time]
    rw [if_neg (by omega), if_pos h2]
  · intro d h1 h2; simp only [categorize_delivery_time]
    rw [if_neg (by omega), if_neg (by omega), if_pos h2]
  · intro d h; simp only [categorize_delivery_time]
    rw [if_neg (by omega), if_neg (by omega), if_neg (by omega)]

/-- Witness for C4 on the test set named in the spec:
{0, 3, 4, 7, 8, 14, 15, 100}. -/
theorem claim_C4_delivery_bucketing_witness :
    categorize_delivery_speed (some 0) = "1-3 days" ∧
    categorize_delivery_speed (some 3) = "1-3 days" ∧
    categorize_delivery_speed (some 4) = "4-7 days" ∧
    categorize_delivery_speed (some 7) = "4-7 days" ∧
    categorize_delivery_speed (some 8) = "8+ days" ∧
    categorize_delivery_speed (some 100) = "8+ days" ∧
    categorize_delivery_time (some 8) = "8-14 days" ∧
    categorize_delivery_time (some 14) = "8-14 days" ∧
    categorize_delivery_time (some 15) = "15+ days" ∧
    categorize_delivery_time (some 100) = "15+ days" :=
  ⟨claim_C4_delivery_bucketing.2.1 0 (by decide),
   claim_C4_delivery_bucketing.2.1 3 (by decide),
   claim_C4_delivery_bucketing.2.2.1 4 (by decide) (by decide),
   claim_C4_delivery_bucketing.2.2.1 7 (by decide) (by decide),
   claim_C4_delivery_bucketing.2.2.2.1 8 (by decide),
   claim_C4_delivery_bucketing.2.2.2.1 100 (by decide),
   claim_C4_delivery_bucketing.2.2.2.2.2.2.2.1 8 (by decide) (by decide),
   claim_C4_delivery_bucketing.2.2.2.2.2.2.2.1 14 (by decide) (by decide),
   claim_C4_delivery_bucketing.2.2.2.2.2.2.2.2.1 15 (by decide),
   claim_C4_delivery_bucketing.2.2.2.2.2.2.2.2.1 100 (by decide)⟩

/-- Claim C5: for a non-empty record set, the `total_revenue` field of the
current-period block of `calculate_revenue_metrics` is the sum of the
`price` field over every row of the (filtered) set, each row indexed and
counted exactly once. -/
theorem claim_C5_total_revenue (data : List SalesRecord) (f : Option PeriodFilter)
    (hne : current_data_of data f ≠ []) :
    (calculate_revenue_metrics data f none).current_period.total_revenue =
      ∑ i : Fin (current_data_of data f).length, ((current_data_of data f).get i).price := by
  have h1 : (calculate_revenue_metrics data f none).current_period.total_revenue =
      total_revenue (current_data_of data f) := rfl
  rw [h1]
  unfold total_revenue
  rw [← List.ofFn_get_eq_map (current_data_of data f) SalesRecord.price, List.sum_ofFn]

/-- Witness for C5 at the six-row fixture. -/
theorem claim_C5_total_revenue_witness :
    (calculate_revenue_metrics fixC2 none none).current_period.total_revenue =
      ∑ i : Fin (current_data_of fixC2 none).length, ((current_data_of fixC2 none).get i).price :=
  claim_C5_total_revenue fixC2 none (by decide)

/-- A list sum of a function over a sorted finset is the finset sum of
that function. -/
theorem sum_map_sort {M : Type} [AddCommMonoid M] (r : String → String → Prop)
    [DecidableRel r] [IsTrans String r] [IsAntisymm String r] [IsTotal String r]
    (s : Finset String) (f : String → M) :
    ((s.sort r).map f).sum = ∑ a in s, f a := by
  have hp : (s.sort r).Perm s.toList := Finset.sort_perm_toList r s
  rw [List.Perm.sum_eq (hp.map f), Finset.sum_to_list]

/-- The per-status row count is the count of the status in the projected
status column. -/
theorem status_count_eq_count (l : List SalesRecord) (s : String) :
    status_count l s = (l.map SalesRecord.order_status).count s := by
  have h1 : (l.map SalesRecord.order_status).count s =
      l.countP fun r => r.order_status == s := by
    rw [List.count_eq_countP, List.countP_map]; rfl
  rw [h1]
  unfold status_count
  rw [← List.countP_eq_length_filter]
  exact List.countP_congr fun x _ => by simp

/-- Claim C10: `calculate_order_status_metrics` counts line items, not
distinct orders: `total_orders` is the number of rows of the input, the
status percentages divide the per-status row counts by the row total, and
on a one-order/two-line-item input the row total (2) differs from the
distinct-order count (1). -/
theorem claim_C10_status_counts_line_items :
    (∀ l : List SalesRecord, (calculate_order_status_metrics l).total_orders = l.length) ∧
    (∀ l : List SalesRecord, (calculate_order_status_metrics l).status_percentages =
      (status_keys l).map fun s => (s, round2 ((status_count l s : ℚ) / (l.length : ℚ) * 100))) ∧
    (calculate_order_status_metrics exC10).total_orders = 2 ∧
    total_orders exC10 = 1 := by
  have htot : ∀ l : List SalesRecord, (calculate_order_status_metrics l).total_orders = l.length := by
    intro l
    show ((status_counts l).map Prod.snd).sum = l.length
    unfold status_counts status_keys
    rw [List.map_map]
    have hcomp : (Prod.snd ∘ fun s => (s, status_count l s)) = status_count l := rfl
    rw [hcomp, sum_map_sort string_le]
    calc ∑ s in (l.map SalesRecord.order_status).toFinset, status_count l s
        = ∑ s in (l.map SalesRecord.order_status).toFinset,
            (l.map SalesRecord.order_status).count s :=
          Finset.sum_congr rfl fun s _ => status_count_eq_count l s
      _ = (l.map SalesRecord.order_status).length := List.sum_toFinset_count_eq_length _
      _ = l.length := List.length_map _ _
  refine ⟨htot, ?_, ?_, by decide⟩
  · intro l
    have hlen : ((status_counts l).map Prod.snd).sum = l.length := htot l
    show (status_counts l).map _ = _
    unfold status_counts at hlen ⊢
    rw [List.map_map]
    refine List.map_congr_left fun s _ => ?_
    simp only [Function.comp]
    rw [hlen]
  · rw [htot exC10]; rfl

/-- Membership in the first-occurrence dedup: an element survives exactly
when it occurs in the input and was not already seen. -/
theorem mem_dedupFirstAux {α : Type} [DecidableEq α] (l : List α) :
    ∀ (seen : List α) (a : α), a ∈ dedupFirstAux seen l ↔ a ∈ l ∧ a ∉ seen := by
  induction l with
  | nil => intro seen a; simp [dedupFirstAux]
  | cons b t ih =>
    intro seen a
    by_cases hb : b ∈ seen
    · rw [dedupFirstAux, if_pos hb, ih]
      constructor
      · rintro ⟨h1, h2⟩; exact ⟨List.mem_cons_of_mem _ h1, h2⟩
      · rintro ⟨h1, h2⟩
        rcases List.mem_cons.1 h1 with rfl | h1
        · exact absurd hb h2
        · exact ⟨h1, h2⟩
    · rw [dedupFirstAux, if_neg hb, List.mem_cons, ih]
      constructor
      · rintro (rfl | ⟨h1, h2⟩)
        · exact ⟨List.mem_cons_self _ _, hb⟩
        · exact ⟨List.mem_cons_of_mem _ h1, fun hs => h2 (List.mem_cons_of_mem _ hs)⟩
      · rintro ⟨h1, h2⟩
        by_cases hab : a = b
        · exact Or.inl hab
        · rcases List.mem_cons.1 h1 with rfl | h1
          · exact absurd rfl hab
          · refine Or.inr ⟨h1, fun hm => ?_⟩
            rcases List.mem_cons.1 hm with rfl | hs
            · exact hab rfl
            · exact h2 hs

/-- The first-occurrence dedup emits no duplicates. -/
theorem nodup_dedupFirstAux {α : Type} [DecidableEq α] (l : List α) :
    ∀ seen : List α, (dedupFirstAux seen l).Nodup := by
  induction l with
  | nil => intro seen; simp [dedupFirstAux]
  | cons b t ih =>
    intro seen
    by_cases hb : b ∈ seen
    · rw [dedupFirstAux, if_pos hb]; exact ih seen
    · rw [dedupFirstAux, if_neg hb]
      refine List.nodup_cons.2 ⟨fun hm => ?_, ih (b :: seen)⟩
      exact ((mem_dedupFirstAux t (b :: seen) b).1 hm).2 (List.mem_cons_self b seen)

/-- Counterexample to claim C3 as stated: on an input whose single
order_id carries two different review scores on two rows,
`analyze_customer_satisfaction` keeps two review rows, so one order_id
contributes two reviews, not one. -/
theorem claim_C3_counterexample :
    (analyze_customer_satisfaction exC3).total_reviews = 2 ∧
    (exC3.map SalesRecord.order_id).toFinset.card = 1 := by decide

/-- Claim C3 amended: the reduction in `analyze_customer_satisfaction` is
`drop_duplicates` on the (order_id, review_score) pair, so the retained
review rows are exactly the distinct pairs of the input, each once; an
order_id repeated with one and the same score therefore contributes one
review, but one repeated with k distinct scores contributes k. -/
theorem claim_C3_dedup_on_pairs (l : List SalesRecord) :
    (review_rows l).Nodup ∧
    ∀ p : ℕ × ℤ, p ∈ review_rows l ↔ p ∈ l.map fun r => (r.order_id, r.review_score) := by
  constructor
  · exact nodup_dedupFirstAux _ []
  · intro p
    rw [review_rows, drop_duplicates, mem_dedupFirstAux]
    simp

/-- A timestamp cell that is not unparseable converts without error. -/
theorem to_datetime_ok_of_ne_invalid (c : TsCell) (h : c ≠ TsCell.invalid) :
    ∃ v : Option ℤ, to_datetime c = .ok v := by
  cases c with
  | missing => exact ⟨none, rfl⟩
  | valid t => exact ⟨some t, rfl⟩
  | invalid => exact absurd rfl h

/-- Counterexample to claim C6 as stated: with one parseable row followed
by one row whose purchase timestamp is unparseable, the cleaning step
raises (returns the error), so the parseable row is not retained — the
whole load aborts instead of dropping the offending row. -/
theorem claim_C6_counterexample :
    clean_and_prepare_data exC6 = .error () ∧
    clean_and_prepare_data exC6 ≠
      .ok [{ order_id := 1, price := 10, purchase_instant := some 100,
             delivered_instant := some 105 }] := by
  constructor
  · rfl
  · intro hk
    rw [show clean_and_prepare_data exC6 = .error () from rfl] at hk
    exact Except.noConfusion hk

/-- Claim C6 amended: `pd.to_datetime` runs with its default
`errors="raise"`, so when every timestamp is parseable or missing the
unification keeps every row (missing delivery dates become null instants),
while a single unparseable timestamp anywhere makes the whole cleaning
call raise — the row is not individually dropped and the rest of the load
does not complete. -/
theorem claim_C6_timestamp_error_aborts (rows : List RawSalesRow) :
    ((∀ r ∈ rows, r.order_purchase_timestamp ≠ TsCell.invalid ∧
        r.order_delivered_customer_date ≠ TsCell.invalid) →
      ∃ cleaned : List UnifiedRow, clean_and_prepare_data rows = .ok cleaned ∧
        cleaned.length = rows.length) ∧
    ((∃ r ∈ rows, r.order_purchase_timestamp = TsCell.invalid ∨
        r.order_delivered_customer_date = TsCell.invalid) →
      clean_and_prepare_data rows = .error ()) := by
  induction rows with
  | nil =>
    constructor
    · intro _; exact ⟨[], rfl, rfl⟩
    · rintro ⟨r, hr, _⟩; exact absurd hr (List.not_mem_nil r)
  | cons r rs ih =>
    constructor
    · intro h
      obtain ⟨hp, hd⟩ := h r (List.mem_cons_self r rs)
      obtain ⟨cl, hcl, hlen⟩ := ih.1 fun x hx => h x (List.mem_cons_of_mem r hx)
      obtain ⟨p, hpv⟩ := to_datetime_ok_of_ne_invalid _ hp
      obtain ⟨d, hdv⟩ := to_datetime_ok_of_ne_invalid _ hd
      refine ⟨⟨r.order_id, r.price, p, d⟩ :: cl, ?_, by simp [hlen]⟩
      rw [clean_and_prepare_data, hpv, hdv, hcl]
    · rintro ⟨x, hx, hbad⟩
      rcases List.mem_cons.1 hx with rfl | hx
      · rcases hbad with hbad | hbad
        · rw [clean_and_prepare_data, hbad]
          rfl
        · rw [clean_and_prepare_data, hbad]
          cases hc : to_datetime x.order_purchase_timestamp <;> rfl
      · have herr : clean_and_prepare_data rs = .error () := ih.2 ⟨x, hx, hbad⟩
        rw [clean_and_prepare_data, herr]
        cases h1 : to_datetime r.order_purchase_timestamp <;>
          cases h2 : to_datetime r.order_delivered_customer_date <;> rfl

/-- Witness for C6: the all-parseable input is cleaned whole, and the
input with an unparseable timestamp yields the error. -/
theorem claim_C6_witness :
    (∃ cleaned : List UnifiedRow, clean_and_prepare_data exC6good = .ok cleaned ∧
      cleaned.length = exC6good.length) ∧
    clean_and_prepare_data exC6 = .error () :=
  ⟨(claim_C6_timestamp_error_aborts exC6good).1 (by decide),
   (claim_C6_timestamp_error_aborts exC6).2 (by decide)⟩

/-- When the comparison set is non-empty, `calculate_revenue_metrics`
emits the growth-rate block built from the bare divisions. -/
theorem growth_rates_of_nonempty (data : List SalesRecord) (cf cmf : PeriodFilter)
    (hne : comparison_data_of data (some cmf) ≠ []) :
    (calculate_revenue_metrics data (some cf) (some cmf)).growth_rates =
      some { revenue_growth := growth_rate (total_revenue (current_data_of data (some cf)))
               (total_revenue (comparison_data_of data (some cmf)))
             order_growth := growth_rate (total_orders (current_data_of data (some cf)) : ℚ)
               (total_orders (comparison_data_of data (some cmf)) : ℚ)
             aov_growth := aov_growth_rate
               (average_order_value (current_data_of data (some cf)))
               (average_order_value (comparison_data_of data (some cmf))) } := by
  have hE : ¬ ((comparison_data_of data (some cmf)).isEmpty = true) := by
    simpa [List.isEmpty_iff] using hne
  show (if (comparison_data_of data (some cmf)).isEmpty then _ else _) = _
  rw [if_neg hE]

/-- Counterexample to claim C1 as stated: with a non-empty comparison set
whose total revenue is 0, `calculate_revenue_metrics` performs the bare
division: the revenue growth rate comes out as the undefined non-finite
value (`none`), not 0. -/
theorem claim_C1_counterexample :
    total_revenue (comparison_data_of exC1 (some ⟨some 2022, none⟩)) = 0 ∧
    ((calculate_revenue_metrics exC1 (some ⟨some 2023, none⟩)
        (some ⟨some 2022, none⟩)).growth_rates.map GrowthRates.revenue_growth) = some none ∧
    some (none : Option ℚ) ≠ some (some (0 : ℚ)) := by
  have h0 : total_revenue (comparison_data_of exC1 (some ⟨some 2022, none⟩)) = 0 := by
    norm_num [total_revenue, comparison_data_of, applyFilter, exC1, mkRec, matchesFilter]
  refine ⟨h0, ?_, by decide⟩
  rw [growth_rates_of_nonempty exC1 ⟨some 2023, none⟩ ⟨some 2022, none⟩ (by decide)]
  rw [h0]
  rw [show growth_rate (total_revenue (current_data_of exC1 (some ⟨some 2023, none⟩))) 0 = none
      from by rw [growth_rate, if_pos rfl]]
  rfl

/-- A non-empty record set has at least one distinct order id. -/
theorem total_orders_ne_zero (l : List SalesRecord) (hne : l ≠ []) :
    total_orders l ≠ 0 := by
  obtain ⟨r, t, rfl⟩ := List.exists_cons_of_ne_nil hne
  have hmem : r.order_id ∈ order_ids (r :: t) := by
    rw [order_ids]; simp
  exact Finset.card_ne_zero_of_mem hmem

/-- Claim C1 amended: when the comparison set is non-empty, each of the
three growth rates of `calculate_revenue_metrics` is the bare
`(current - comparison) / comparison * 100` whenever its comparison value
is nonzero (for the order count that value is necessarily nonzero), and
is the undefined non-finite division result, not 0, when the comparison
value is 0 (shown for the revenue and AOV rates, the two that can be 0).
The policy of returning 0 for a zero or absent comparison value lives only
in the dashboard trend computations of `app.py`, for all three trends. -/
theorem claim_C1_growth_rates (data : List SalesRecord) (cf cmf : PeriodFilter) (c p : ℚ)
    (hne : comparison_data_of data (some cmf) ≠ []) :
    (total_revenue (comparison_data_of data (some cmf)) ≠ 0 →
      ∃ gr : GrowthRates,
        (calculate_revenue_metrics data (some cf) (some cmf)).growth_rates = some gr ∧
        gr.revenue_growth = some ((total_revenue (current_data_of data (some cf)) -
            total_revenue (comparison_data_of data (some cmf))) /
          total_revenue (comparison_data_of data (some cmf)) * 100)) ∧
    (total_revenue (comparison_data_of data (some cmf)) = 0 →
      ∃ gr : GrowthRates,
        (calculate_revenue_metrics data (some cf) (some cmf)).growth_rates = some gr ∧
        gr.revenue_growth = none) ∧
    (∃ gr : GrowthRates,
      (calculate_revenue_metrics data (some cf) (some cmf)).growth_rates = some gr ∧
      gr.order_growth = some (((total_orders (current_data_of data (some cf)) : ℚ) -
          (total_orders (comparison_data_of data (some cmf)) : ℚ)) /
        (total_orders (comparison_data_of data (some cmf)) : ℚ) * 100)) ∧
    (∀ a b : ℚ, average_order_value (current_data_of data (some cf)) = some a →
      average_order_value (comparison_data_of data (some cmf)) = some b → b ≠ 0 →
      ∃ gr : GrowthRates,
        (calculate_revenue_metrics data (some cf) (some cmf)).growth_rates = some gr ∧
        gr.aov_growth = some ((a - b) / b * 100)) ∧
    (average_order_value (comparison_data_of data (some cmf)) = some 0 →
      ∃ gr : GrowthRates,
        (calculate_revenue_metrics data (some cf) (some cmf)).growth_rates = some gr ∧
        gr.aov_growth = none) ∧
    app_trend c 0 true = 0 ∧
    app_trend c p false = 0 ∧
    (0 < p → app_trend c p true = (c - p) / p * 100) ∧
    app_aov_trend (some c) (some 0) true = 0 ∧
    app_aov_trend (some c) (some p) false = 0 ∧
    (0 < p → app_aov_trend (some c) (some p) true = (c - p) / p * 100) := by
  have hgr := growth_rates_of_nonempty data cf cmf hne
  refine ⟨?_, ?_, ?_, ?_, ?_, ?_, ?_, ?_, ?_, ?_, ?_⟩
  · intro hz
    exact ⟨_, hgr, by rw [growth_rate, if_neg hz]⟩
  · intro hz
    exact ⟨_, hgr, by rw [growth_rate, if_pos hz]⟩
  · refine ⟨_, hgr, ?_⟩
    have h0 : ((total_orders (comparison_data_of data (some cmf)) : ℚ)) ≠ 0 := by
      exact_mod_cast total_orders_ne_zero _ hne
    show growth_rate _ _ = _
    rw [growth_rate, if_neg h0]
  · intro a b ha hb hb0
    refine ⟨_, hgr, ?_⟩
    show aov_growth_rate (average_order_value (current_data_of data (some cf)))
        (average_order_value (comparison_data_of data (some cmf))) = _
    rw [ha, hb]
    show growth_rate a b = _
    rw [growth_rate, if_neg hb0]
  · intro hb
    refine ⟨_, hgr, ?_⟩
    show aov_growth_rate (average_order_value (current_data_of data (some cf)))
        (average_order_value (comparison_data_of data (some cmf))) = none
    rw [hb]
    cases hcur : average_order_value (current_data_of data (some cf)) with
    | none => rfl
    | some a =>
      show growth_rate a 0 = none
      rw [growth_rate, if_pos rfl]
  · simp [app_trend]
  · simp [app_trend]
  · intro hp2
    rw [app_trend, if_pos rfl]
    simp [hp2]
  · simp [app_aov_trend]
  · simp [app_aov_trend]
  · intro hp2
    rw [app_aov_trend]
    simp [hp2]

/-- Witness for C1: at the concrete two-row data set the comparison period
is non-empty with zero revenue, and the undefined growth value is
observed. -/
theorem claim_C1_growth_rates_witness :
    ∃ gr : GrowthRates,
      (calculate_revenue_metrics exC1 (some ⟨some 2023, none⟩)
        (some ⟨some 2022, none⟩)).growth_rates = some gr ∧
      gr.revenue_growth = none :=
  (claim_C1_growth_rates exC1 ⟨some 2023, none⟩ ⟨some 2022, none⟩ 1 2
    (by decide)).2.1
    (by norm_num [total_revenue, comparison_data_of, applyFilter, exC1, mkRec, matchesFilter])

/-- Claim C2: the average order value of `calculate_revenue_metrics` is
permutation-invariant, equals the mean over distinct orders of the
per-order price sums, and on the 1/2/3-line-item fixture comes out as 30 —
which differs from the flat mean of the six line-item prices (15). -/
theorem claim_C2_aov_permutation_invariant (l l' : List SalesRecord)
    (hperm : l.Perm l') (hne : l ≠ []) :
    average_order_value l = average_order_value l' ∧
    average_order_value l =
      some ((∑ o in order_ids l, order_sum l o) / (total_orders l : ℚ)) ∧
    average_order_value fixC2 = some 30 ∧
    some ((30 : ℚ)) ≠ some (total_revenue fixC2 / (fixC2.length : ℚ)) := by
  have hids : order_ids l = order_ids l' :=
    List.toFinset_eq_of_perm _ _ (hperm.map _)
  have hsum : ∀ o : ℕ, order_sum l o = order_sum l' o := fun o =>
    List.Perm.sum_eq ((hperm.filter _).map _)
  have hto : total_orders l = total_orders l' := by
    rw [total_orders, total_orders, hids]
  refine ⟨?_, ?_, ?_, ?_⟩
  · have hsum2 : (∑ o in order_ids l, order_sum l o) =
        ∑ o in order_ids l', order_sum l' o := by
      rw [← hids]; exact Finset.sum_congr rfl fun o _ => hsum o
    unfold average_order_value
    rw [hto, hsum2]
  · have h0 : total_orders l ≠ 0 := by
      obtain ⟨r, t, rfl⟩ := List.exists_cons_of_ne_nil hne
      have hmem : r.order_id ∈ order_ids (r :: t) := by
        rw [order_ids]; simp
      exact Finset.card_ne_zero_of_mem hmem
    unfold average_order_value
    rw [if_neg h0]
  · have hidsf : order_ids fixC2 = {1, 2, 3} := by decide
    have hto3 : total_orders fixC2 = 3 := by rw [total_orders, hidsf]; rfl
    have hs1 : order_sum fixC2 1 = 10 := by norm_num [order_sum, fixC2, mkRec]
    have hs2 : order_sum fixC2 2 = 50 := by norm_num [order_sum, fixC2, mkRec]
    have hs3 : order_sum fixC2 3 = 30 := by norm_num [order_sum, fixC2, mkRec]
    unfold average_order_value
    rw [hto3, if_neg (by norm_num), hidsf]
    rw [Finset.sum_insert (by decide), Finset.sum_insert (by decide),
      Finset.sum_singleton, hs1, hs2, hs3]
    norm_num
  · have htr : total_revenue fixC2 = 90 := by norm_num [total_revenue, fixC2, mkRec]
    rw [htr]
    simp only [ne_eq, Option.some.injEq]
    norm_num [fixC2, mkRec]

/-- Witness for C2: the fixture and its rotation have the same average
order value. -/
theorem claim_C2_witness :
    average_order_value fixC2 = average_order_value fixC2perm :=
  (claim_C2_aov_permutation_invariant fixC2 fixC2perm (by decide) (by decide)).1

/-- Multiplying every element of a list by a constant multiplies its sum. -/
theorem sum_map_mul_const (zs : List ℚ) (c : ℚ) : (zs.map (· * c)).sum = zs.sum * c := by
  induction zs with
  | nil => simp
  | cons a t ih => simp [ih, add_mul]

/-- Scaling the percentage inside the zip is the same as scaling the
zipped fractional changes afterwards. -/
theorem zipWith_mul_const (xs ys : List ℚ) :
    List.zipWith (fun a b => (b - a) / a * 100) xs ys =
      (List.zipWith (fun a b => (b - a) / a) xs ys).map (· * 100) := by
  induction xs generalizing ys with
  | nil => simp
  | cons a t ih =>
    cases ys with
    | nil => simp
    | cons b u => simp [ih]

/-- Claim C8: the dashboard's intra-period monthly growth equals the
arithmetic mean of the successive percentage changes of the ordered
monthly revenue totals, and is 0 when fewer than two months are present. -/
theorem claim_C8_monthly_growth (l : List SalesRecord)
    (h : ∀ x ∈ monthly_revenue_series l, x ≠ 0) :
    monthly_growth l = spec_monthly_growth l ∧
    ((monthly_revenue_series l).length ≤ 1 → monthly_growth l = 0) := by
  constructor
  · unfold monthly_growth spec_monthly_growth
    by_cases hl : 1 < (monthly_revenue_series l).length
    · rw [if_pos hl, if_pos hl]
      rw [zipWith_mul_const]
      unfold list_mean pct_change
      rw [sum_map_mul_const, List.length_map]
      ring
    · rw [if_neg hl, if_neg hl]
  · intro hlen
    unfold monthly_growth
    rw [if_neg (by omega)]

/-- Witness for C8 on two months with revenues 10 and 15. -/
theorem claim_C8_monthly_growth_witness :
    monthly_growth exC8 = spec_monthly_growth exC8 := by
  have htf : (exC8.map period_key).toFinset = ({24277, 24278} : Finset ℤ) := by decide
  have hsort : month_keys exC8 = [24277, 24278] := by
    rw [month_keys, htf, Finset.sort_insert, Finset.sort_singleton]
    · intro b hb
      have : b = 24278 := by simpa using hb
      rw [this]; decide
    · decide
  have hser : monthly_revenue_series exC8 = [10, 15] := by
    rw [monthly_revenue_series, hsort]
    show [month_revenue exC8 24277, month_revenue exC8 24278] = [10, 15]
    norm_num [month_revenue, exC8, mkRec, period_key]
  exact (claim_C8_monthly_growth exC8 (by rw [hser]; decide)).1

/-- Round half to even lands within one half of the argument. -/
theorem abs_round_half_even_sub (x : ℚ) : |(round_half_even x : ℚ) - x| ≤ 1 / 2 := by
  unfold round_half_even
  have h0 : (0 : ℚ) ≤ x - ⌊x⌋ := by
    have := Int.floor_le x; linarith
  have h1 : x - ⌊x⌋ < 1 := by
    have := Int.lt_floor_add_one x; linarith
  by_cases hc1 : x - ⌊x⌋ < 1 / 2
  · rw [if_pos hc1, abs_le]
    constructor <;> linarith
  · rw [if_neg hc1]
    by_cases hc2 : 1 / 2 < x - ⌊x⌋
    · rw [if_pos hc2, abs_le]
      push_cast
      constructor <;> linarith
    · rw [if_neg hc2]
      have heq : x - ⌊x⌋ = 1 / 2 := le_antisymm (not_lt.1 hc2) (not_lt.1 hc1)
      by_cases he : Even ⌊x⌋
      · rw [if_pos he, abs_le]
        constructor <;> linarith
      · rw [if_neg he, abs_le]
        push_cast
        constructor <;> linarith

/-- Rounding to two decimal places moves a value by at most 1/200. -/
theorem abs_round2_sub (x : ℚ) : |round2 x - x| ≤ 1 / 200 := by
  unfold round2
  have h := abs_round_half_even_sub (x * 100)
  have hrw : (round_half_even (x * 100) : ℚ) / 100 - x =
      ((round_half_even (x * 100) : ℚ) - x * 100) / 100 := by ring
  rw [hrw, abs_div, abs_of_pos (by norm_num : (0 : ℚ) < 100)]
  calc |(round_half_even (x * 100) : ℚ) - x * 100| / 100 ≤ (1 / 2) / 100 := by gcongr
    _ = 1 / 200 := by norm_num

/-- A sum of pointwise-close functions over one list stays close: the gap
is at most the length times the pointwise bound. -/
theorem list_abs_sum_sub_le {α : Type} (T : List α) (f g : α → ℚ) (c : ℚ)
    (h : ∀ x ∈ T, |f x - g x| ≤ c) :
    |(T.map f).sum - (T.map g).sum| ≤ (T.length : ℚ) * c := by
  induction T with
  | nil => simp
  | cons a t ih =>
    simp only [List.map_cons, List.sum_cons, List.length_cons]
    have h1 := h a (List.mem_cons_self a t)
    have h2 := ih fun x hx => h x (List.mem_cons_of_mem a hx)
    have hrw : f a + (t.map f).sum - (g a + (t.map g).sum) =
        (f a - g a) + ((t.map f).sum - (t.map g).sum) := by ring
    rw [hrw]
    calc |(f a - g a) + ((t.map f).sum - (t.map g).sum)|
        ≤ |f a - g a| + |(t.map f).sum - (t.map g).sum| := abs_add _ _
      _ ≤ c + (t.length : ℚ) * c := add_le_add h1 h2
      _ = ((t.length : ℚ) + 1) * c := by ring
      _ = (((t.length : ℕ) + 1 : ℕ) : ℚ) * c := by push_cast; ring

/-- Factoring the common division and scaling out of the exact shares. -/
theorem sum_shares_exact (T : List GroupRow) (ov : ℚ) :
    (T.map fun g => g.total_revenue / ov * 100).sum =
      (T.map GroupRow.total_revenue).sum / ov * 100 := by
  induction T with
  | nil => simp
  | cons a t ih =>
    simp only [List.map_cons, List.sum_cons, ih]
    ring

/-- The rounded revenue shares of a grouped analyzer table sum to 100 up
to the accumulated rounding error of one half-cent per group. -/
theorem shares_sum_close_to_100 (key : SalesRecord → String) (l : List SalesRecord)
    (h : overall_group_revenue key l ≠ 0) :
    |((with_share key l).map GroupPerfRow.revenue_share).sum - 100| ≤
      ((with_share key l).length : ℚ) / 200 := by
  have hmap : (with_share key l).map GroupPerfRow.revenue_share =
      (sorted_group_table key l).map fun g =>
        round2 (g.total_revenue / overall_group_revenue key l * 100) := by
    unfold with_share
    rw [List.map_map]
    rfl
  have hlen : (with_share key l).length = (sorted_group_table key l).length := by
    unfold with_share
    rw [List.length_map]
  have hexact : ((sorted_group_table key l).map fun g =>
      g.total_revenue / overall_group_revenue key l * 100).sum = 100 := by
    rw [sum_shares_exact]
    have hov : ((sorted_group_table key l).map GroupRow.total_revenue).sum =
        overall_group_revenue key l := rfl
    rw [hov, div_self h]
    norm_num
  have hb := list_abs_sum_sub_le (sorted_group_table key l)
    (fun g => round2 (g.total_revenue / overall_group_revenue key l * 100))
    (fun g => g.total_revenue / overall_group_revenue key l * 100)
    (1 / 200) (fun g _ => abs_round2_sub _)
  rw [hmap, hlen]
  calc |((sorted_group_table key l).map fun g =>
        round2 (g.total_revenue / overall_group_revenue key l * 100)).sum - 100|
      = |((sorted_group_table key l).map fun g =>
          round2 (g.total_revenue / overall_group_revenue key l * 100)).sum -
        ((sorted_group_table key l).map fun g =>
          g.total_revenue / overall_group_revenue key l * 100).sum| := by rw [hexact]
    _ ≤ ((sorted_group_table key l).length : ℚ) * (1 / 200) := hb
    _ = ((sorted_group_table key l).length : ℚ) / 200 := by ring

/-- The share table is ordered by weakly descending revenue.  Nothing is
asserted about the order of equal revenues: the source's default quicksort
leaves it unspecified. -/
theorem with_share_sorted (key : SalesRecord → String) (l : List SalesRecord) :
    (with_share key l).Pairwise fun a b => b.total_revenue ≤ a.total_revenue := by
  have hs : (sorted_group_table key l).Pairwise revenue_desc :=
    List.sorted_insertionSort revenue_desc (group_table key l)
  unfold with_share
  exact List.Pairwise.map _ (fun a b hab => hab) hs

/-- Sorting the grouped table only permutes it. -/
theorem sorted_group_table_perm (key : SalesRecord → String) (l : List SalesRecord) :
    (sorted_group_table key l).Perm (group_table key l) :=
  List.perm_insertionSort revenue_desc (group_table key l)

/-- Claim C7 amended: in both the category and the geographic analyzer,
each group's revenue share is the two-decimal rounding of its (rounded)
revenue divided by the overall table revenue times 100, the shares sum to
100 within the rounding tolerance of the per-group half-cent, and the rows
come out in weakly descending revenue order as a permutation of the
grouped table.  The order of equal revenues is not asserted: the source
sorts with the default unstable quicksort, which guarantees no tie
order. -/
theorem claim_C7_revenue_share (l : List SalesRecord)
    (hp : overall_group_revenue (fun r => r.product_category_name) l ≠ 0)
    (hg : overall_group_revenue (fun r => r.customer_state) l ≠ 0) :
    (∀ g ∈ analyze_product_performance l, g.revenue_share =
      round2 (g.total_revenue /
        overall_group_revenue (fun r => r.product_category_name) l * 100)) ∧
    |((analyze_product_performance l).map GroupPerfRow.revenue_share).sum - 100| ≤
      ((analyze_product_performance l).length : ℚ) / 200 ∧
    (analyze_product_performance l).Pairwise (fun a b =>
      b.total_revenue ≤ a.total_revenue) ∧
    (sorted_group_table (fun r => r.product_category_name) l).Perm
      (group_table (fun r => r.product_category_name) l) ∧
    (∀ g ∈ analyze_geographic_performance l, g.revenue_share =
      round2 (g.total_revenue /
        overall_group_revenue (fun r => r.customer_state) l * 100)) ∧
    |((analyze_geographic_performance l).map GroupPerfRow.revenue_share).sum - 100| ≤
      ((analyze_geographic_performance l).length : ℚ) / 200 ∧
    (analyze_geographic_performance l).Pairwise (fun a b =>
      b.total_revenue ≤ a.total_revenue) ∧
    (sorted_group_table (fun r => r.customer_state) l).Perm
      (group_table (fun r => r.customer_state) l) := by
  have hform : ∀ key : SalesRecord → String, ∀ g ∈ with_share key l,
      g.revenue_share = round2 (g.total_revenue / overall_group_revenue key l * 100) := by
    intro key g hgmem
    unfold with_share at hgmem
    obtain ⟨g0, _, rfl⟩ := List.mem_map.1 hgmem
    rfl
  exact ⟨hform _, shares_sum_close_to_100 _ l hp, with_share_sorted _ l,
    sorted_group_table_perm _ l, hform _, shares_sum_close_to_100 _ l hg,
    with_share_sorted _ l, sorted_group_table_perm _ l⟩

/-- Rounding leaves an integral rational unchanged (half-even branch not
reached). -/
theorem round_half_even_intCast (m : ℤ) : round_half_even ((m : ℚ)) = m := by
  unfold round_half_even
  rw [Int.floor_intCast, if_pos (by norm_num)]

/-- Two-decimal rounding leaves an integral rational unchanged. -/
theorem round2_intCast (n : ℤ) : round2 ((n : ℚ)) = (n : ℚ) := by
  unfold round2
  rw [show ((n : ℚ) * 100) = (((n * 100 : ℤ)) : ℚ) from by push_cast; ring,
    round_half_even_intCast]
  push_cast
  rw [mul_div_assoc]
  norm_num

/-- Witness for C7 at the two-category/two-state fixture, in which every
group's revenue is nonzero. -/
theorem claim_C7_revenue_share_witness :
    |((analyze_product_performance exC7).map GroupPerfRow.revenue_share).sum - 100| ≤
      ((analyze_product_performance exC7).length : ℚ) / 200 := by
  have hkP : group_keys (fun r => r.product_category_name) exC7 = ["cat_a", "cat_b"] := by
    rw [group_keys,
      show ((exC7.map fun r => r.product_category_name).toFinset) =
        ({"cat_a", "cat_b"} : Finset String) from by decide,
      Finset.sort_insert, Finset.sort_singleton]
    · intro b hb
      have hb2 : b = "cat_b" := by simpa using hb
      rw [hb2]; decide
    · decide
  have hkG : group_keys (fun r => r.customer_state) exC7 = ["RJ", "SP"] := by
    rw [group_keys,
      show ((exC7.map fun r => r.customer_state).toFinset) =
        ({"RJ", "SP"} : Finset String) from by decide,
      Finset.sort_insert, Finset.sort_singleton]
    · intro b hb
      have hb2 : b = "SP" := by simpa using hb
      rw [hb2]; decide
    · decide
  have hoverP : overall_group_revenue (fun r => r.product_category_name) exC7 =
      round2 10 + round2 30 := by
    unfold overall_group_revenue
    rw [List.Perm.sum_eq ((sorted_group_table_perm _ _).map GroupRow.total_revenue)]
    rw [group_table, hkP]
    simp only [List.map_cons, List.map_nil, List.sum_cons, List.sum_nil]
    rw [show group_revenue (fun r => r.product_category_name) exC7 "cat_a" = round2 10 from by
        rw [group_revenue]; simp +decide [exC7, mkRec],
      show group_revenue (fun r => r.product_category_name) exC7 "cat_b" = round2 30 from by
        rw [group_revenue]; simp +decide [exC7, mkRec]]
    ring
  have hoverG : overall_group_revenue (fun r => r.customer_state) exC7 =
      round2 30 + round2 10 := by
    unfold overall_group_revenue
    rw [List.Perm.sum_eq ((sorted_group_table_perm _ _).map GroupRow.total_revenue)]
    rw [group_table, hkG]
    simp only [List.map_cons, List.map_nil, List.sum_cons, List.sum_nil]
    rw [show group_revenue (fun r => r.customer_state) exC7 "RJ" = round2 30 from by
        rw [group_revenue]; simp +decide [exC7, mkRec],
      show group_revenue (fun r => r.customer_state) exC7 "SP" = round2 10 from by
        rw [group_revenue]; simp +decide [exC7, mkRec]]
    ring
  have h10 : round2 (10 : ℚ) = 10 := by simpa using round2_intCast 10
  have h30 : round2 (30 : ℚ) = 30 := by simpa using round2_intCast 30
  have hp : overall_group_revenue (fun r => r.product_category_name) exC7 ≠ 0 := by
    rw [hoverP, h10, h30]; norm_num
  have hg : overall_group_revenue (fun r => r.customer_state) exC7 ≠ 0 := by
    rw [hoverG, h10, h30]; norm_num
  exact (claim_C7_revenue_share exC7 hp hg).2.1

/-- Counterexample to claim C7 as stated: the category analyzer rounds the
share column to two decimals (`business_metrics.py` line 149), so on group
revenues 10 and 20 the returned share of the 10-revenue group is 33.33,
which is not equal to 10 / 30 * 100 = 100/3 — the share does not equal the
group revenue divided by the overall revenue times 100 exactly. -/
theorem claim_C7_counterexample :
    (⟨"cat_a", 10, 3333 / 100⟩ : GroupPerfRow) ∈ analyze_product_performance exC7r ∧
    (3333 / 100 : ℚ) ≠
      (10 : ℚ) / overall_group_revenue (fun r => r.product_category_name) exC7r * 100 := by
  have hk : group_keys (fun r => r.product_category_name) exC7r = ["cat_a", "cat_b"] := by
    rw [group_keys,
      show ((exC7r.map fun r => r.product_category_name).toFinset) =
        ({"cat_a", "cat_b"} : Finset String) from by decide,
      Finset.sort_insert, Finset.sort_singleton]
    · intro b hb
      have hb2 : b = "cat_b" := by simpa using hb
      rw [hb2]; decide
    · decide
  have h10 : round2 (10 : ℚ) = 10 := by simpa using round2_intCast 10
  have h20 : round2 (20 : ℚ) = 20 := by simpa using round2_intCast 20
  have htab : group_table (fun r => r.product_category_name) exC7r =
      [⟨"cat_a", 10⟩, ⟨"cat_b", 20⟩] := by
    rw [group_table, hk]
    simp only [List.map_cons, List.map_nil]
    rw [show group_revenue (fun r => r.product_category_name) exC7r "cat_a" = round2 10 from by
        rw [group_revenue]; simp +decide [exC7r, mkRec],
      show group_revenue (fun r => r.product_category_name) exC7r "cat_b" = round2 20 from by
        rw [group_revenue]; simp +decide [exC7r, mkRec],
      h10, h20]
  have hsorted : sorted_group_table (fun r => r.product_category_name) exC7r =
      [⟨"cat_b", 20⟩, ⟨"cat_a", 10⟩] := by
    rw [sorted_group_table, htab]
    simp only [List.insertionSort, List.orderedInsert]
    rw [if_neg (by norm_num [revenue_desc])]
  have hover : overall_group_revenue (fun r => r.product_category_name) exC7r = 30 := by
    unfold overall_group_revenue
    rw [hsorted]
    norm_num
  have hshare : round2 ((10 : ℚ) / 30 * 100) = 3333 / 100 := by
    unfold round2 round_half_even
    rw [show ((10 : ℚ) / 30 * 100) * 100 = 10000 / 3 from by norm_num]
    have hfl : ⌊(10000 / 3 : ℚ)⌋ = 3333 := by
      rw [Int.floor_eq_iff]
      constructor <;> norm_num
    rw [hfl, if_pos (by norm_num)]
    norm_num
  have hout : analyze_product_performance exC7r =
      [⟨"cat_b", 20, round2 ((20 : ℚ) / 30 * 100)⟩,
       ⟨"cat_a", 10, round2 ((10 : ℚ) / 30 * 100)⟩] := by
    unfold analyze_product_performance with_share
    simp only [hsorted, hover, List.map_cons, List.map_nil]
  constructor
  · rw [hout, ← hshare]
    simp
  · rw [hover]
    norm_num

end ECommerce

